import Mathlib

/-!
Shallow embedding of the InfiniteScroll React component (infinite-react-scroll).
The component keeps a bounded window over a paginated source: forward and
backward IntersectionObserver callbacks update the pagination offsets, two
fetch effects merge fetched pages into the window and trim it to
size * numberOfPagesRendered elements, and a scroll adjustment keeps the
viewport stable after a backward (prepend) merge.

The definitions below are translated from the component source.  State setters
of a React render cycle are modelled as one pure state transformation; the
container geometry (scrollHeight, loader height) is an external parameter; a
fetch that resolves with undefined is modelled as Option.none.
-/

namespace InfiniteScroll

/-- JS Array.prototype.slice with a negative start index, slice(-k): keeps the
last k elements; when k is 0 (slice(-0) is slice(0)) or k exceeds the length,
the whole array is returned. -/
def jsSliceFromEnd {T : Type} (l : List T) (k : ℕ) : List T :=
  if k = 0 then l else l.drop (l.length - k)

/-- A paginated data source: called with (size, offset), it resolves with a
page of items, or with no result (undefined / failure), modelled as none. -/
def Source (T : Type) : Type :=
  ℕ → ℤ → Option (List T)

/-- The React state of the component.  window models the data state variable
(none models undefined); scrollTop models containerRef.current.scrollTop. -/
structure ScrollState (T : Type) : Type where
  window : Option (List T)
  prevOffset : ℤ
  nextOffset : ℤ
  dataFinished : Bool
  loading : Bool
  fetchDataForward : Bool
  fetchDataBackward : Bool
  scrollTop : ℚ

/-- The list actually rendered: data or [] when data is undefined. -/
def renderedList {T : Type} (s : ScrollState T) : List T :=
  s.window.getD []

/-- Math.floor((data?.length || size) - 0.2 * size), read in exact rational
arithmetic: when the window length is 0 (or data is undefined) the JS falsy
check substitutes size for the length; x - 0.2 * size equals (5x - size)/5 and
its floor is the Euclidean integer division by 5.  The theorem
forwardThreshold_eq_floor below certifies this equals the rational floor. -/
def forwardThreshold (dataLength size : ℕ) : ℤ :=
  (5 * ((if dataLength = 0 then size else dataLength : ℕ) : ℤ) - (size : ℤ)) / 5

/-- Math.floor(0.2 * size), read in exact rational arithmetic: the floor of
size/5, which is the Euclidean integer division by 5.  The theorem
backwardThreshold_eq_floor below certifies this equals the rational floor. -/
def backwardThreshold (size : ℕ) : ℤ :=
  (size : ℤ) / 5

/-- What the render chain attaches to the list element at a given index. -/
inductive Decoration : Type where
  | backwardLoader
  | upperTarget
  | lowerTarget
  | trailingLoader
  | plain
deriving DecidableEq

/-- The decoration chosen for index idx by the chain of if statements in the
render body (the first matching branch wins). -/
def decorationAt {T : Type} (loaderPresent : Bool) (size : ℕ)
    (s : ScrollState T) (idx : ℕ) : Decoration :=
  let L := (renderedList s).length
  if idx = 0 ∧ loaderPresent = true ∧ s.loading = true ∧ s.fetchDataBackward = true then
    Decoration.backwardLoader
  else if 0 < s.prevOffset ∧ (idx : ℤ) = backwardThreshold size then
    Decoration.upperTarget
  else if (idx : ℤ) = forwardThreshold L size ∧ s.dataFinished = false then
    Decoration.lowerTarget
  else if (idx : ℤ) = (L : ℤ) - 1 ∧ loaderPresent = true ∧ s.dataFinished = false
      ∧ s.fetchDataForward = true then
    Decoration.trailingLoader
  else
    Decoration.plain

/-- The early return before the list render: when neither direction is being
fetched but loading is set, only the loader component is returned and no
markers exist in the DOM. -/
def markersSuppressed {T : Type} (s : ScrollState T) : Bool :=
  !s.fetchDataForward && !s.fetchDataBackward && s.loading

/-- The lower (forward) boundary marker is present in the DOM: the list is
rendered and some index receives the lowerTarget ref. -/
def lowerTargetRendered {T : Type} (loaderPresent : Bool) (size : ℕ)
    (s : ScrollState T) : Bool :=
  !markersSuppressed s &&
    (List.range (renderedList s).length).any
      (fun idx => decide (decorationAt loaderPresent size s idx = Decoration.lowerTarget))

/-- The upper (backward) boundary marker is present in the DOM. -/
def upperTargetRendered {T : Type} (loaderPresent : Bool) (size : ℕ)
    (s : ScrollState T) : Bool :=
  !markersSuppressed s &&
    (List.range (renderedList s).length).any
      (fun idx => decide (decorationAt loaderPresent size s idx = Decoration.upperTarget))

/-- The setPrevOffset updater of the backward IntersectionObserver: modulo is
the window length mod size, and the new offset is prev - size when modulo is 0
and otherwise prev - (dataLength - modulo * size), clamped below by 0.  Note
the source multiplies modulo by size inside the parenthesis. -/
def nextBackwardOffset (prev : ℤ) (dataLength size : ℕ) : ℤ :=
  let modulo : ℕ := dataLength % size
  let newOffset : ℤ :=
    if modulo = 0 then prev - (size : ℤ)
    else prev - ((dataLength : ℤ) - (modulo : ℤ) * (size : ℤ))
  max 0 newOffset

/-- The computeNextBackwardOffset recipe as the specification words it:
remainder = windowLength mod pageSize; newOffset = prev - pageSize when the
remainder is 0, else prev - (windowLength - remainder); clamped below by 0.
Stated only for comparison with the updater translated from the source. -/
def specNextBackwardOffset (prev : ℤ) (windowLength size : ℕ) : ℤ :=
  let remainder : ℕ := windowLength % size
  let newOffset : ℤ :=
    if remainder = 0 then prev - (size : ℤ)
    else prev - ((windowLength : ℤ) - (remainder : ℤ))
  max 0 newOffset

/-- The forward fetch effect merge: newData is the old window with the fetched
page appended; when it exceeds maxNumberOfElements, handleExcessData keeps the
trailing maxNumberOfElements items (slice(-max)) and reports the excess, which
the effect adds to prevOffset.  Returns (stored window, prevOffset increment). -/
def forwardMerge {T : Type} (w fetched : List T) (maxNumberOfElements : ℕ) :
    List T × ℤ :=
  let newData := w ++ fetched
  if maxNumberOfElements < newData.length then
    (jsSliceFromEnd newData maxNumberOfElements,
      (newData.length : ℤ) - (maxNumberOfElements : ℤ))
  else (newData, 0)

/-- The backward fetch effect merge: newData is the fetched page prepended to
the old window; when it exceeds maxNumberOfElements, handleExcessData keeps the
leading maxNumberOfElements items (slice(0, max)) and reports the excess, which
the effect subtracts from nextOffset.  Returns (stored window, excess). -/
def backwardMerge {T : Type} (fetched w : List T) (maxNumberOfElements : ℕ) :
    List T × ℤ :=
  let newData := fetched ++ w
  if maxNumberOfElements < newData.length then
    (newData.take maxNumberOfElements,
      (newData.length : ℤ) - (maxNumberOfElements : ℤ))
  else (newData, 0)

/-- The scroll adjustment applied after a backward fetch: the estimated height
of a single element is (scrollHeight - loaderComponentHeight) divided by
maxNumberOfElements, and the scroll moves by fetchedCount elements minus the
loader height. -/
def scrollDelta (scrollHeight loaderComponentHeight : ℚ)
    (maxNumberOfElements fetchedCount : ℕ) : ℚ :=
  let heightOfSingleElement :=
    (scrollHeight - loaderComponentHeight) / (maxNumberOfElements : ℚ)
  (fetchedCount : ℚ) * heightOfSingleElement - loaderComponentHeight

/-- The async body of the forward fetch effect: fetches at the current
nextOffset, sets dataFinished when the result has fewer than size items (a
missing result compares as false, as undefined < size does in JS), merges
forward and clears loading and the forward flag. -/
def forwardFetchBody {T : Type} (src : Source T) (size maxNumberOfElements : ℕ)
    (s : ScrollState T) : ScrollState T :=
  let moreData := src size s.nextOffset
  let finished : Bool :=
    match moreData with
    | some l => s.dataFinished || decide (l.length < size)
    | none => s.dataFinished
  let p := forwardMerge (s.window.getD []) (moreData.getD []) maxNumberOfElements
  { s with dataFinished := finished,
           prevOffset := s.prevOffset + p.2,
           window := some p.1,
           loading := false,
           fetchDataForward := false }

/-- The async body of the backward fetch effect: fetches at the current
prevOffset, merges backward and stores the window; then it evaluates
moreData!.length for the scroll adjustment, which throws a TypeError when the
fetch resolved with no result: in that case the statements after the throw
(including setFetchDataBackward(false)) never run.  Returns the state reached
and whether the body crashed. -/
def backwardFetchBody {T : Type} (src : Source T) (size maxNumberOfElements : ℕ)
    (scrollHeight loaderComponentHeight : ℚ) (s : ScrollState T) :
    ScrollState T × Bool :=
  let moreData := src size s.prevOffset
  let p := backwardMerge (moreData.getD []) (s.window.getD []) maxNumberOfElements
  let s1 := { s with loading := false,
                     window := some p.1,
                     nextOffset := s.nextOffset - p.2 }
  match moreData with
  | none => (s1, true)
  | some l =>
      ({ s1 with
          scrollTop := s1.scrollTop
            + scrollDelta scrollHeight loaderComponentHeight maxNumberOfElements l.length,
          fetchDataBackward := false }, false)

/-- Direction of a call against the paginated source. -/
inductive Dir : Type where
  | fwd
  | bwd
deriving DecidableEq

/-- One call issued against the paginated source. -/
structure FetchCall : Type where
  dir : Dir
  size : ℕ
  offset : ℤ
deriving DecidableEq

/-- Result of handling one boundary-crossing event: the state after the render
cycle, the source calls issued, and whether an effect body crashed. -/
structure StepOut (T : Type) : Type where
  state : ScrollState T
  calls : List FetchCall
  crashed : Bool

/-- A forward boundary crossing.  The observer only fires when the lowerTarget
marker is in the DOM; it advances nextOffset by size and raises the forward
flag; the effect keyed on nextOffset then runs the forward fetch body (it does
not re-run when the offset value did not change). -/
def forwardCrossStep {T : Type} (loaderPresent : Bool) (src : Source T)
    (size : ℕ) (s : ScrollState T) : StepOut T :=
  let maxNumberOfElements := size * 2
  if lowerTargetRendered loaderPresent size s then
    if s.nextOffset + (size : ℤ) = s.nextOffset then
      ⟨{ s with nextOffset := s.nextOffset + (size : ℤ),
                fetchDataForward := true, fetchDataBackward := false }, [], false⟩
    else
      let s0 := { s with nextOffset := s.nextOffset + (size : ℤ),
                         fetchDataForward := true, fetchDataBackward := false,
                         loading := true }
      ⟨forwardFetchBody src size maxNumberOfElements s0,
        [⟨Dir.fwd, size, s.nextOffset + (size : ℤ)⟩], false⟩
  else ⟨s, [], false⟩

/-- A backward boundary crossing.  The observer only fires when the upperTarget
marker is in the DOM; it recomputes prevOffset with the updater and raises the
backward flag; the effect keyed on prevOffset then runs the backward fetch body
(it does not re-run when the offset value did not change). -/
def backwardCrossStep {T : Type} (loaderPresent : Bool) (src : Source T)
    (size : ℕ) (scrollHeight loaderComponentHeight : ℚ) (s : ScrollState T) :
    StepOut T :=
  let maxNumberOfElements := size * 2
  if upperTargetRendered loaderPresent size s then
    let newPrev := nextBackwardOffset s.prevOffset (renderedList s).length size
    if newPrev = s.prevOffset then
      ⟨{ s with prevOffset := newPrev,
                fetchDataForward := false, fetchDataBackward := true }, [], false⟩
    else
      let s0 := { s with prevOffset := newPrev,
                         fetchDataForward := false, fetchDataBackward := true,
                         loading := true }
      let r := backwardFetchBody src size maxNumberOfElements
        scrollHeight loaderComponentHeight s0
      ⟨r.1, [⟨Dir.bwd, size, newPrev⟩], r.2⟩
  else ⟨s, [], false⟩

/-- The effect keyed on the fetch function: whenever the source identity
changes it fetches (size, 0), stores the result as the window, zeroes both
offsets, clears dataFinished and scrolls to the top.  Returns the state and
the single call issued. -/
def resetStep {T : Type} (src : Source T) (size : ℕ) (s : ScrollState T) :
    ScrollState T × FetchCall :=
  let r := src size 0
  ({ s with window := r, prevOffset := 0, nextOffset := 0,
            dataFinished := false, loading := false, scrollTop := 0 },
   ⟨Dir.fwd, size, 0⟩)

/-- Boundary-crossing events (reset is treated separately). -/
inductive Ev : Type where
  | fwdCross
  | bwdCross

/-- Dispatch one event. -/
def stepEv {T : Type} (loaderPresent : Bool) (src : Source T) (size : ℕ)
    (scrollHeight loaderComponentHeight : ℚ) (s : ScrollState T) :
    Ev → StepOut T
  | Ev.fwdCross => forwardCrossStep loaderPresent src size s
  | Ev.bwdCross =>
      backwardCrossStep loaderPresent src size scrollHeight loaderComponentHeight s

/-- Run a sequence of boundary-crossing events, accumulating the source calls
issued along the way. -/
def runTrace {T : Type} (loaderPresent : Bool) (src : Source T) (size : ℕ)
    (scrollHeight loaderComponentHeight : ℚ) :
    ScrollState T → List Ev → ScrollState T × List FetchCall
  | s, [] => (s, [])
  | s, e :: rest =>
      let o := stepEv loaderPresent src size scrollHeight loaderComponentHeight s e
      let r := runTrace loaderPresent src size scrollHeight loaderComponentHeight
        o.state rest
      (r.1, o.calls ++ r.2)

/-- The calls of a trace that went to the forward direction. -/
def forwardCalls (calls : List FetchCall) : List FetchCall :=
  calls.filter (fun c => decide (c.dir = Dir.fwd))

/-- One merge, abstracted over which fetch effect performed it. -/
inductive MergeOp (T : Type) : Type where
  | fwd (fetched : List T)
  | bwd (fetched : List T)
deriving DecidableEq

/-- The window stored after one merge. -/
def applyMergeOp {T : Type} (maxNumberOfElements : ℕ) (w : List T) :
    MergeOp T → List T
  | MergeOp.fwd fetched => (forwardMerge w fetched maxNumberOfElements).1
  | MergeOp.bwd fetched => (backwardMerge fetched w maxNumberOfElements).1

/-- The window stored after a sequence of merges. -/
def applyMerges {T : Type} (maxNumberOfElements : ℕ) (w : List T)
    (ms : List (MergeOp T)) : List T :=
  ms.foldl (applyMergeOp maxNumberOfElements) w

theorem floor_sub_fifth (x s : ℕ) :
    Int.floor ((x : ℚ) - (0.2 : ℚ) * (s : ℚ)) = (5 * (x : ℤ) - (s : ℤ)) / 5 := by
  have h : (x : ℚ) - (0.2 : ℚ) * (s : ℚ)
      = ((5 * (x : ℤ) - (s : ℤ) : ℤ) : ℚ) / ((5 : ℕ) : ℚ) := by
    push_cast
    ring_nf
  rw [h, Rat.floor_intCast_div_natCast]
  norm_num

theorem floor_fifth (s : ℕ) :
    Int.floor ((0.2 : ℚ) * (s : ℚ)) = (s : ℤ) / 5 := by
  have h : (0.2 : ℚ) * (s : ℚ) = (((s : ℤ) : ℤ) : ℚ) / ((5 : ℕ) : ℚ) := by
    push_cast
    ring_nf
  rw [h, Rat.floor_intCast_div_natCast]
  norm_num

/-- The exact-integer form of the forward threshold is the Math.floor of the
expression the source computes, read in exact rational arithmetic. -/
theorem forwardThreshold_eq_floor (dataLength size : ℕ) :
    forwardThreshold dataLength size
      = Int.floor (((if dataLength = 0 then size else dataLength : ℕ) : ℚ)
          - (0.2 : ℚ) * (size : ℚ)) :=
  (floor_sub_fifth _ _).symm

/-- The exact-integer form of the backward threshold is the Math.floor of the
expression the source computes, read in exact rational arithmetic. -/
theorem backwardThreshold_eq_floor (size : ℕ) :
    backwardThreshold size = Int.floor ((0.2 : ℚ) * (size : ℚ)) :=
  (floor_fifth _).symm

/-- A source that always resolves with no result (undefined). -/
def noneSource (T : Type) : Source T := fun _ _ => none

/-- Claim C1: the claim (and the specification formula it quotes) says the
next backward offset is max(0, prev - (L - L mod P)) when L mod P is nonzero;
the source computes max(0, prev - (L - (L mod P) * P)) instead, multiplying
the remainder by the page size.  At L = 15, P = 10, prev = 20 the code yields
55 where the claimed formula yields 10.  The clamping part of the claim (the
offset is never negative) does hold of the code. -/
theorem backward_offset_updater_code_bug :
    nextBackwardOffset 20 15 10 = 55 ∧
    specNextBackwardOffset 20 15 10 = 10 ∧
    nextBackwardOffset 20 15 10 ≠ specNextBackwardOffset 20 15 10 ∧
    (∀ (prev : ℤ) (dataLength size : ℕ), 0 ≤ nextBackwardOffset prev dataLength size) := by
  refine ⟨by decide, by decide, by decide, ?_⟩
  intro prev dataLength size
  exact le_max_left 0 _

/-- Claim C9: whenever the source identity changes, the reset effect issues
one forward fetch at offset 0 and afterwards, whatever the prior state was,
the window is exactly that fetch result, both offsets are 0 and dataFinished
is false. -/
theorem source_change_resets_state {T : Type} (src : Source T) (size : ℕ)
    (s : ScrollState T) :
    (resetStep src size s).2 = ⟨Dir.fwd, size, 0⟩ ∧
    (resetStep src size s).1.window = src size 0 ∧
    (resetStep src size s).1.prevOffset = 0 ∧
    (resetStep src size s).1.nextOffset = 0 ∧
    (resetStep src size s).1.dataFinished = false :=
  ⟨rfl, rfl, rfl, rfl, rfl⟩

/-- Claim C4: a forward merge that exceeds 2 * pageSize keeps exactly the
trailing 2 * pageSize items in order, discards the leading excess and raises
prevOffset by that excess; otherwise it appends the fetched items and the
prevOffset increment is 0; the forward fetch body adds exactly the reported
increment to prevOffset. -/
theorem forward_merge_trims_leading_excess {T : Type} (P : ℕ) (w fetched : List T)
    (hP : 0 < P) :
    ((w ++ fetched).length ≤ 2 * P →
        forwardMerge w fetched (2 * P) = (w ++ fetched, 0)) ∧
    (2 * P < (w ++ fetched).length →
        (forwardMerge w fetched (2 * P)).1
            = (w ++ fetched).drop ((w ++ fetched).length - 2 * P) ∧
        (forwardMerge w fetched (2 * P)).1.length = 2 * P ∧
        (forwardMerge w fetched (2 * P)).2
            = ((w ++ fetched).length : ℤ) - ((2 * P : ℕ) : ℤ) ∧
        (w ++ fetched).take ((w ++ fetched).length - 2 * P)
            ++ (forwardMerge w fetched (2 * P)).1 = w ++ fetched) ∧
    (∀ (src : Source T) (size : ℕ) (s : ScrollState T),
        (forwardFetchBody src size (2 * P) s).prevOffset
          = s.prevOffset
            + (forwardMerge (s.window.getD []) ((src size s.nextOffset).getD [])
                (2 * P)).2) := by
  refine ⟨?_, ?_, ?_⟩
  · intro h
    simp only [forwardMerge]
    rw [if_neg (not_lt.mpr h)]
  · intro h
    have h0 : ¬ (2 * P = 0) := by omega
    refine ⟨?_, ?_, ?_, ?_⟩
    · simp only [forwardMerge, jsSliceFromEnd, if_pos h, if_neg h0]
    · simp only [forwardMerge, jsSliceFromEnd, if_pos h, if_neg h0, List.length_drop]
      omega
    · simp only [forwardMerge, if_pos h]
    · simp only [forwardMerge, jsSliceFromEnd, if_pos h, if_neg h0]
      exact List.take_append_drop _ _
  · intro src size s
    rfl

/-- Claim C5: a backward merge that exceeds 2 * pageSize keeps exactly the
leading 2 * pageSize items in order, discards the trailing excess and the
backward fetch body lowers nextOffset by that excess; otherwise it prepends
the fetched items and the excess is 0. -/
theorem backward_merge_trims_trailing_excess {T : Type} (P : ℕ) (fetched w : List T)
    (hP : 0 < P) :
    ((fetched ++ w).length ≤ 2 * P →
        backwardMerge fetched w (2 * P) = (fetched ++ w, 0)) ∧
    (2 * P < (fetched ++ w).length →
        (backwardMerge fetched w (2 * P)).1 = (fetched ++ w).take (2 * P) ∧
        (backwardMerge fetched w (2 * P)).1.length = 2 * P ∧
        (backwardMerge fetched w (2 * P)).2
            = ((fetched ++ w).length : ℤ) - ((2 * P : ℕ) : ℤ) ∧
        (backwardMerge fetched w (2 * P)).1 ++ (fetched ++ w).drop (2 * P)
            = fetched ++ w) ∧
    (∀ (src : Source T) (size : ℕ) (sh lh : ℚ) (s : ScrollState T),
        (backwardFetchBody src size (2 * P) sh lh s).1.nextOffset
          = s.nextOffset
            - (backwardMerge ((src size s.prevOffset).getD []) (s.window.getD [])
                (2 * P)).2) := by
  refine ⟨?_, ?_, ?_⟩
  · intro h
    simp only [backwardMerge]
    rw [if_neg (not_lt.mpr h)]
  · intro h
    refine ⟨?_, ?_, ?_, ?_⟩
    · simp only [backwardMerge, if_pos h]
    · simp only [backwardMerge, if_pos h, List.length_take]
      omega
    · simp only [backwardMerge, if_pos h]
    · simp only [backwardMerge, if_pos h]
      exact List.take_append_drop _ _
  · intro src size sh lh s
    rcases hmd : src size s.prevOffset with _ | l <;>
      simp [backwardFetchBody, hmd]

/-- One merge leaves at most maxNumberOfElements items, whatever the window
held before, as long as the capacity is positive. -/
theorem length_applyMergeOp_le {T : Type} (maxEl : ℕ) (hm : 0 < maxEl)
    (w : List T) (m : MergeOp T) : (applyMergeOp maxEl w m).length ≤ maxEl := by
  cases m with
  | fwd fetched =>
      by_cases hc : maxEl < (w ++ fetched).length
      · simp only [applyMergeOp, forwardMerge, jsSliceFromEnd, if_pos hc,
          if_neg (show ¬ maxEl = 0 by omega)]
        simp only [List.length_drop]
        omega
      · simp only [applyMergeOp, forwardMerge, if_neg hc]
        omega
  | bwd fetched =>
      by_cases hc : maxEl < (fetched ++ w).length
      · simp only [applyMergeOp, backwardMerge, if_pos hc]
        simp only [List.length_take]
        omega
      · simp only [applyMergeOp, backwardMerge, if_neg hc]
        omega

/-- After at least one merge the bound holds, whatever the initial window. -/
theorem length_applyMerges_cons_le {T : Type} (maxEl : ℕ) (hm : 0 < maxEl) :
    ∀ (ms : List (MergeOp T)) (w : List T) (m : MergeOp T),
      (applyMerges maxEl (applyMergeOp maxEl w m) ms).length ≤ maxEl := by
  intro ms
  induction ms with
  | nil => intro w m; exact length_applyMergeOp_le maxEl hm w m
  | cons m2 rest ih => intro w m; exact ih (applyMergeOp maxEl w m) m2

/-- Claim C2: for every nonempty sequence of forward and backward merges and
every positive page size, the stored window holds at most 2 * pageSize items
after the last merge completes (and hence after every merge, since the start
window is arbitrary). -/
theorem window_length_bounded_after_merges {T : Type} (P : ℕ) (w : List T)
    (ms : List (MergeOp T)) (hP : 0 < P) (hms : ms ≠ []) :
    (applyMerges (2 * P) w ms).length ≤ 2 * P := by
  cases ms with
  | nil => exact absurd rfl hms
  | cons m rest => exact length_applyMerges_cons_le (2 * P) (by omega) rest w m

/-- Witness for claim C2 at pageSize 1 and one forward merge of three items. -/
theorem window_length_bounded_after_merges_witness :
    0 < 1 ∧ ([MergeOp.fwd [0, 1, 2]] : List (MergeOp ℕ)) ≠ [] ∧
    (applyMerges (2 * 1) ([] : List ℕ) [MergeOp.fwd [0, 1, 2]]).length ≤ 2 * 1 :=
  ⟨by decide, by decide,
    window_length_bounded_after_merges 1 [] [MergeOp.fwd [0, 1, 2]]
      (by decide) (by decide)⟩

/-- The state the C7 argument starts from: a full page is shown, prevOffset is
positive so the upper marker is in the DOM, and nothing is in flight. -/
def crashState : ScrollState ℕ :=
  { window := some [0, 1, 2, 3, 4, 5, 6, 7, 8, 9], prevOffset := 10,
    nextOffset := 20, dataFinished := false, loading := false,
    fetchDataForward := false, fetchDataBackward := false, scrollTop := 0 }

/-- Claim C7: the claim says a failed fetch returns the coordinator to Idle.
The forward body does, but the backward body evaluates moreData!.length on the
missing result and throws, so the backward flag is never cleared: after a
backward crossing whose fetch resolves with no result the component is stuck
with fetchDataBackward still true (not Idle), although the window, nextOffset
and dataFinished are indeed left intact and the crossing did issue the call. -/
theorem backward_fetch_failure_crashes_before_idle :
    (backwardCrossStep false (noneSource ℕ) 10 1050 50 crashState).crashed = true ∧
    (backwardCrossStep false (noneSource ℕ) 10 1050 50 crashState).state.fetchDataBackward
        = true ∧
    (backwardCrossStep false (noneSource ℕ) 10 1050 50 crashState).state.window
        = some [0, 1, 2, 3, 4, 5, 6, 7, 8, 9] ∧
    (backwardCrossStep false (noneSource ℕ) 10 1050 50 crashState).state.nextOffset = 20 ∧
    (backwardCrossStep false (noneSource ℕ) 10 1050 50 crashState).state.dataFinished
        = false ∧
    (backwardCrossStep false (noneSource ℕ) 10 1050 50 crashState).calls
        = [⟨Dir.bwd, 10, 0⟩] := by
  refine ⟨?_, ?_, ?_, ?_, ?_, ?_⟩ <;> decide

/-- Claim C6: after every successful backward fetch the scroll offset moves by
fetchedCount * ((scrollHeight - loaderHeight) / maxElements) - loaderHeight
with maxElements = 2 * pageSize, and at baseHeight 1000, maxElements 60,
prependedCount 30, indicatorHeight 50 the delta is 450. -/
theorem backward_scroll_anchoring_delta {T : Type} (src : Source T) (size : ℕ)
    (scrollHeight loaderComponentHeight : ℚ) (s : ScrollState T) (l : List T)
    (h : src size s.prevOffset = some l) :
    (backwardFetchBody src size (2 * size) scrollHeight loaderComponentHeight s).1.scrollTop
      = s.scrollTop
        + ((l.length : ℚ)
            * ((scrollHeight - loaderComponentHeight) / ((2 * size : ℕ) : ℚ))
          - loaderComponentHeight) ∧
    (backwardFetchBody src size (2 * size) scrollHeight loaderComponentHeight s).2
        = false ∧
    scrollDelta 1050 50 60 30 = 450 := by
  refine ⟨?_, ?_, ?_⟩
  · simp [backwardFetchBody, h, scrollDelta]
  · simp [backwardFetchBody, h]
  · norm_num [scrollDelta]

/-- Claim C10: a forward fetch that resolves with no result leaves the window
contents unchanged (an empty page is appended), does not touch prevOffset and
does not set dataFinished, because the fewer-than-pageSize comparison against
the absent length is false; the window is within its capacity bound when the
fetch starts, as every reachable window is. -/
theorem forward_fetch_without_result_preserves_window {T : Type} (src : Source T)
    (size maxNumberOfElements : ℕ) (s : ScrollState T)
    (hw : (s.window.getD []).length ≤ maxNumberOfElements)
    (hsrc : src size s.nextOffset = none) :
    (forwardFetchBody src size maxNumberOfElements s).window = some (s.window.getD []) ∧
    (forwardFetchBody src size maxNumberOfElements s).dataFinished = s.dataFinished ∧
    (forwardFetchBody src size maxNumberOfElements s).prevOffset = s.prevOffset := by
  have hcond : ¬ (maxNumberOfElements < (s.window.getD []).length) := by
    omega
  refine ⟨?_, ?_, ?_⟩ <;>
    simp [forwardFetchBody, hsrc, forwardMerge, hcond]

/-- Claim C8 counterexample: for the empty window the source substitutes the
page size for the window length (the JS falsy check data?.length || size), so
with L = 0 and P = 10 the computed forward trigger index is
floor(10 - 0.2 * 10) = 8 and not floor(0 - 0.2 * 10) = -2 as the claimed
formula states for every window length. -/
theorem forward_threshold_empty_window_cex :
    forwardThreshold 0 10 = 8 ∧
    Int.floor (((0 : ℕ) : ℚ) - (0.2 : ℚ) * ((10 : ℕ) : ℚ)) = -2 ∧
    forwardThreshold 0 10 ≠ Int.floor (((0 : ℕ) : ℚ) - (0.2 : ℚ) * ((10 : ℕ) : ℚ)) := by
  have h2 : Int.floor (((0 : ℕ) : ℚ) - (0.2 : ℚ) * ((10 : ℕ) : ℚ)) = -2 := by
    rw [floor_sub_fifth 0 10]
    decide
  refine ⟨by decide, h2, ?_⟩
  rw [h2]
  decide

/-- Claim C8 (amended): for every nonempty window (length at least 1) the
forward trigger index equals floor(L - 0.2 * P) and the backward trigger index
equals floor(0.2 * P); an index only carries the upper (backward) marker when
prevOffset is positive and the index is the backward threshold, no backward
marker exists when prevOffset is 0, and an index only carries the lower
(forward) marker at the forward threshold of the rendered length. -/
theorem boundary_marker_thresholds {T : Type} (loaderPresent : Bool)
    (size L idx : ℕ) (s : ScrollState T) (hL : 1 ≤ L) :
    forwardThreshold L size = Int.floor ((L : ℚ) - (0.2 : ℚ) * (size : ℚ)) ∧
    backwardThreshold size = Int.floor ((0.2 : ℚ) * (size : ℚ)) ∧
    (decorationAt loaderPresent size s idx = Decoration.upperTarget →
        0 < s.prevOffset ∧ (idx : ℤ) = backwardThreshold size) ∧
    (s.prevOffset = 0 → decorationAt loaderPresent size s idx ≠ Decoration.upperTarget) ∧
    (decorationAt loaderPresent size s idx = Decoration.lowerTarget →
        (idx : ℤ) = forwardThreshold (renderedList s).length size ∧
        s.dataFinished = false) := by
  have hup : decorationAt loaderPresent size s idx = Decoration.upperTarget →
      0 < s.prevOffset ∧ (idx : ℤ) = backwardThreshold size := by
    intro hdec
    simp only [decorationAt] at hdec
    split_ifs at hdec with h1 h2 h3 h4
    exact h2
  refine ⟨?_, backwardThreshold_eq_floor size, hup, ?_, ?_⟩
  · rw [forwardThreshold_eq_floor, if_neg (show ¬ L = 0 by omega)]
  · intro h0 hdec
    have hpos := (hup hdec).1
    omega
  · intro hdec
    simp only [decorationAt] at hdec
    split_ifs at hdec with h1 h2 h3 h4
    exact h3

/-- A state with ten items shown and a positive backward offset, used to
instantiate the marker-placement facts. -/
def markerState : ScrollState ℕ :=
  { window := some [0, 1, 2, 3, 4, 5, 6, 7, 8, 9], prevOffset := 3,
    nextOffset := 0, dataFinished := false, loading := false,
    fetchDataForward := false, fetchDataBackward := false, scrollTop := 0 }

/-- Witness for the amended claim C8 at L = 10, P = 10, idx = 2. -/
theorem boundary_marker_thresholds_witness :
    1 ≤ 10 ∧
    (forwardThreshold 10 10
        = Int.floor (((10 : ℕ) : ℚ) - (0.2 : ℚ) * ((10 : ℕ) : ℚ)) ∧
     backwardThreshold 10 = Int.floor ((0.2 : ℚ) * ((10 : ℕ) : ℚ)) ∧
     (decorationAt false 10 markerState 2 = Decoration.upperTarget →
         0 < markerState.prevOffset ∧ ((2 : ℕ) : ℤ) = backwardThreshold 10) ∧
     (markerState.prevOffset = 0 →
         decorationAt false 10 markerState 2 ≠ Decoration.upperTarget) ∧
     (decorationAt false 10 markerState 2 = Decoration.lowerTarget →
         ((2 : ℕ) : ℤ) = forwardThreshold (renderedList markerState).length 10 ∧
         markerState.dataFinished = false)) :=
  ⟨by decide, boundary_marker_thresholds false 10 10 2 markerState (by decide)⟩

/-- When dataFinished is set, no index renders the lowerTarget marker. -/
theorem decorationAt_ne_lowerTarget_of_finished {T : Type} (loaderPresent : Bool)
    (size : ℕ) (s : ScrollState T) (hd : s.dataFinished = true) (idx : ℕ) :
    decorationAt loaderPresent size s idx ≠ Decoration.lowerTarget := by
  simp only [decorationAt]
  split_ifs with h1 h2 h3 h4 <;> simp_all

/-- When dataFinished is set, the forward marker is absent from the DOM. -/
theorem lowerTargetRendered_false_of_finished {T : Type} (loaderPresent : Bool)
    (size : ℕ) (s : ScrollState T) (hd : s.dataFinished = true) :
    lowerTargetRendered loaderPresent size s = false := by
  have hany : ((List.range (renderedList s).length).any
      (fun idx => decide (decorationAt loaderPresent size s idx = Decoration.lowerTarget)))
        = false := by
    rw [List.any_eq_false]
    intro x hx
    simp only [decide_eq_true_eq]
    exact decorationAt_ne_lowerTarget_of_finished loaderPresent size s hd x
  rw [lowerTargetRendered, hany, Bool.and_false]

/-- forwardCalls distributes over concatenation. -/
theorem forwardCalls_append (a b : List FetchCall) :
    forwardCalls (a ++ b) = forwardCalls a ++ forwardCalls b :=
  List.filter_append _ _

/-- A backward crossing never changes dataFinished and issues no forward call. -/
theorem backwardCrossStep_preserves_finished {T : Type} (loaderPresent : Bool)
    (src : Source T) (size : ℕ) (sh lh : ℚ) (s : ScrollState T) :
    (backwardCrossStep loaderPresent src size sh lh s).state.dataFinished
        = s.dataFinished ∧
    forwardCalls (backwardCrossStep loaderPresent src size sh lh s).calls = [] := by
  by_cases hg : upperTargetRendered loaderPresent size s = true
  · by_cases he : nextBackwardOffset s.prevOffset (renderedList s).length size
        = s.prevOffset
    · constructor <;> simp [backwardCrossStep, hg, he, forwardCalls]
    · rcases hmd : src size (nextBackwardOffset s.prevOffset (renderedList s).length size)
        with _ | l
      · constructor <;>
          simp [backwardCrossStep, hg, he, backwardFetchBody, hmd, forwardCalls]
      · constructor <;>
          simp [backwardCrossStep, hg, he, backwardFetchBody, hmd, forwardCalls]
  · constructor <;> simp [backwardCrossStep, hg, forwardCalls]

/-- Along any reset-free trace, a state with dataFinished set keeps it set and
issues no forward source call. -/
theorem runTrace_preserves_finished {T : Type} (loaderPresent : Bool)
    (src : Source T) (size : ℕ) (sh lh : ℚ) (evs : List Ev) :
    ∀ (s : ScrollState T), s.dataFinished = true →
      (runTrace loaderPresent src size sh lh s evs).1.dataFinished = true ∧
      forwardCalls (runTrace loaderPresent src size sh lh s evs).2 = [] := by
  induction evs with
  | nil => exact fun s hd => ⟨hd, rfl⟩
  | cons e rest ih =>
      intro s hd
      cases e with
      | fwdCross =>
          have hno : stepEv loaderPresent src size sh lh s Ev.fwdCross
              = ⟨s, [], false⟩ := by
            simp [stepEv, forwardCrossStep,
              lowerTargetRendered_false_of_finished loaderPresent size s hd]
          simp only [runTrace, hno, List.nil_append]
          exact ih s hd
      | bwdCross =>
          obtain ⟨hpres, hcalls⟩ :=
            backwardCrossStep_preserves_finished loaderPresent src size sh lh s
          have hd2 : (backwardCrossStep loaderPresent src size sh lh s).state.dataFinished
              = true := by
            rw [hpres]; exact hd
          obtain ⟨i1, i2⟩ := ih _ hd2
          constructor
          · simpa only [runTrace, stepEv] using i1
          · simp only [runTrace, stepEv]
            rw [forwardCalls_append, hcalls, i2]
            rfl

/-- Claim C3: a forward crossing whose fetch returns fewer than pageSize items
sets dataFinished, and along any subsequent reset-free sequence of boundary
crossings dataFinished stays true and no forward source call is ever issued:
the forward marker is no longer rendered, so the forward observer cannot
fire. -/
theorem forward_exhaustion_sticky {T : Type} (loaderPresent : Bool)
    (src : Source T) (size : ℕ) (sh lh : ℚ) (s : ScrollState T) (l : List T)
    (evs : List Ev) (hsize : 0 < size)
    (hrend : lowerTargetRendered loaderPresent size s = true)
    (hsrc : src size (s.nextOffset + (size : ℤ)) = some l)
    (hshort : l.length < size) :
    (forwardCrossStep loaderPresent src size s).state.dataFinished = true ∧
    (runTrace loaderPresent src size sh lh
        (forwardCrossStep loaderPresent src size s).state evs).1.dataFinished = true ∧
    forwardCalls (runTrace loaderPresent src size sh lh
        (forwardCrossStep loaderPresent src size s).state evs).2 = [] := by
  have h1 : (forwardCrossStep loaderPresent src size s).state.dataFinished = true := by
    have hne : ¬ (s.nextOffset + (size : ℤ) = s.nextOffset) := by omega
    simp only [forwardCrossStep, hrend, if_true, if_neg hne, forwardFetchBody, hsrc]
    simp [hshort]
  obtain ⟨h2, h3⟩ := runTrace_preserves_finished loaderPresent src size sh lh evs _ h1
  exact ⟨h1, h2, h3⟩

/-- A source whose every page is the single item 99. -/
def shortPageSource : Source ℕ := fun _ _ => some [99]

/-- A state showing a full page of ten items at the start of the source. -/
def exhaustionState : ScrollState ℕ :=
  { window := some [0, 1, 2, 3, 4, 5, 6, 7, 8, 9], prevOffset := 0,
    nextOffset := 0, dataFinished := false, loading := false,
    fetchDataForward := false, fetchDataBackward := false, scrollTop := 0 }

/-- Witness for claim C3: page size 10, a short page of one item, then a
backward and a forward crossing. -/
theorem forward_exhaustion_sticky_witness :
    0 < 10 ∧
    lowerTargetRendered false 10 exhaustionState = true ∧
    shortPageSource 10 (exhaustionState.nextOffset + (10 : ℤ)) = some [99] ∧
    ([99] : List ℕ).length < 10 ∧
    ((forwardCrossStep false shortPageSource 10 exhaustionState).state.dataFinished
        = true ∧
     (runTrace false shortPageSource 10 0 0
         (forwardCrossStep false shortPageSource 10 exhaustionState).state
         [Ev.bwdCross, Ev.fwdCross]).1.dataFinished = true ∧
     forwardCalls (runTrace false shortPageSource 10 0 0
         (forwardCrossStep false shortPageSource 10 exhaustionState).state
         [Ev.bwdCross, Ev.fwdCross]).2 = []) :=
  ⟨by decide, by decide, rfl, by decide,
    forward_exhaustion_sticky false shortPageSource 10 0 0 exhaustionState [99]
      [Ev.bwdCross, Ev.fwdCross] (by decide) (by decide) rfl (by decide)⟩

/-- Witness for claim C4 at pageSize 2, window [0, 1, 2], fetched [3, 4, 5]. -/
theorem forward_merge_trims_leading_excess_witness :
    0 < 2 ∧
    (((([0, 1, 2] : List ℕ) ++ [3, 4, 5]).length ≤ 2 * 2 →
        forwardMerge [0, 1, 2] [3, 4, 5] (2 * 2) = (([0, 1, 2] : List ℕ) ++ [3, 4, 5], 0)) ∧
     (2 * 2 < ((([0, 1, 2] : List ℕ) ++ [3, 4, 5])).length →
        (forwardMerge [0, 1, 2] [3, 4, 5] (2 * 2)).1
            = (([0, 1, 2] : List ℕ) ++ [3, 4, 5]).drop
                ((([0, 1, 2] : List ℕ) ++ [3, 4, 5]).length - 2 * 2) ∧
        (forwardMerge [0, 1, 2] [3, 4, 5] (2 * 2)).1.length = 2 * 2 ∧
        (forwardMerge [0, 1, 2] [3, 4, 5] (2 * 2)).2
            = (((([0, 1, 2] : List ℕ) ++ [3, 4, 5]).length : ℕ) : ℤ) - ((2 * 2 : ℕ) : ℤ) ∧
        (([0, 1, 2] : List ℕ) ++ [3, 4, 5]).take
              ((([0, 1, 2] : List ℕ) ++ [3, 4, 5]).length - 2 * 2)
            ++ (forwardMerge [0, 1, 2] [3, 4, 5] (2 * 2)).1
          = ([0, 1, 2] : List ℕ) ++ [3, 4, 5]) ∧
     (∀ (src : Source ℕ) (size : ℕ) (s : ScrollState ℕ),
        (forwardFetchBody src size (2 * 2) s).prevOffset
          = s.prevOffset
            + (forwardMerge (s.window.getD []) ((src size s.nextOffset).getD [])
                (2 * 2)).2)) :=
  ⟨by decide, forward_merge_trims_leading_excess 2 [0, 1, 2] [3, 4, 5] (by decide)⟩

/-- Witness for claim C5 at pageSize 2, fetched [9, 8], window [5, 4, 3]. -/
theorem backward_merge_trims_trailing_excess_witness :
    0 < 2 ∧
    (((([9, 8] : List ℕ) ++ [5, 4, 3]).length ≤ 2 * 2 →
        backwardMerge [9, 8] [5, 4, 3] (2 * 2) = (([9, 8] : List ℕ) ++ [5, 4, 3], 0)) ∧
     (2 * 2 < ((([9, 8] : List ℕ) ++ [5, 4, 3])).length →
        (backwardMerge [9, 8] [5, 4, 3] (2 * 2)).1
            = (([9, 8] : List ℕ) ++ [5, 4, 3]).take (2 * 2) ∧
        (backwardMerge [9, 8] [5, 4, 3] (2 * 2)).1.length = 2 * 2 ∧
        (backwardMerge [9, 8] [5, 4, 3] (2 * 2)).2
            = (((([9, 8] : List ℕ) ++ [5, 4, 3]).length : ℕ) : ℤ) - ((2 * 2 : ℕ) : ℤ) ∧
        (backwardMerge [9, 8] [5, 4, 3] (2 * 2)).1
              ++ (([9, 8] : List ℕ) ++ [5, 4, 3]).drop (2 * 2)
          = ([9, 8] : List ℕ) ++ [5, 4, 3]) ∧
     (∀ (src : Source ℕ) (size : ℕ) (sh lh : ℚ) (s : ScrollState ℕ),
        (backwardFetchBody src size (2 * 2) sh lh s).1.nextOffset
          = s.nextOffset
            - (backwardMerge ((src size s.prevOffset).getD []) (s.window.getD [])
                (2 * 2)).2)) :=
  ⟨by decide, backward_merge_trims_trailing_excess 2 [9, 8] [5, 4, 3] (by decide)⟩

/-- A source whose every page is the thirty items 0..29. -/
def thirtySource : Source ℕ := fun _ _ => some (List.range 30)

/-- An empty window about to receive a backward page. -/
def anchorState : ScrollState ℕ :=
  { window := some [], prevOffset := 0, nextOffset := 0, dataFinished := false,
    loading := true, fetchDataForward := false, fetchDataBackward := true,
    scrollTop := 0 }

/-- Witness for claim C6 at pageSize 30 (maxElements 60), scrollHeight 1050,
loader height 50 and a fetched page of thirty items. -/
theorem backward_scroll_anchoring_delta_witness :
    thirtySource 30 anchorState.prevOffset = some (List.range 30) ∧
    ((backwardFetchBody thirtySource 30 (2 * 30) 1050 50 anchorState).1.scrollTop
        = anchorState.scrollTop
          + (((List.range 30).length : ℚ)
              * (((1050 : ℚ) - 50) / ((2 * 30 : ℕ) : ℚ)) - 50) ∧
     (backwardFetchBody thirtySource 30 (2 * 30) 1050 50 anchorState).2 = false ∧
     scrollDelta 1050 50 60 30 = 450) :=
  ⟨rfl, backward_scroll_anchoring_delta thirtySource 30 1050 50 anchorState
    (List.range 30) rfl⟩

/-- A small state within its capacity bound, used for the C10 witness. -/
def smallState : ScrollState ℕ :=
  { window := some [5, 6, 7], prevOffset := 4, nextOffset := 9,
    dataFinished := false, loading := false, fetchDataForward := true,
    fetchDataBackward := false, scrollTop := 0 }

/-- Witness for claim C10 at pageSize 3, capacity 6 and a missing result. -/
theorem forward_fetch_without_result_preserves_window_witness :
    (smallState.window.getD []).length ≤ 6 ∧
    noneSource ℕ 3 smallState.nextOffset = none ∧
    ((forwardFetchBody (noneSource ℕ) 3 6 smallState).window
        = some (smallState.window.getD []) ∧
     (forwardFetchBody (noneSource ℕ) 3 6 smallState).dataFinished
        = smallState.dataFinished ∧
     (forwardFetchBody (noneSource ℕ) 3 6 smallState).prevOffset
        = smallState.prevOffset) :=
  ⟨by decide, rfl,
    forward_fetch_without_result_preserves_window (noneSource ℕ) 3 6 smallState
      (by decide) rfl⟩

end InfiniteScroll
